import Mathlib

/-!
Verification development for the pending-transaction trace sampler
(`src/python/main.py`).  The script subscribes to a node's pending
transaction feed over a websocket, and for each announced transaction
fetches a Geth-style prestate trace (`debug_traceTransaction`) and a
Parity-style state-diff trace (`trace_replayTransaction`), printing the
set of touched addresses of each.

The embedding below models:
 * JSON values as an inductive `Json` (objects are association lists as
   produced by `json.loads`, whose keys are distinct);
 * the post-parse extraction logic of `geth_style_tracing` and
   `parity_style_tracing` as functions from the parsed RPC response to
   `Except PyError (Option (List String))` — `Except.error` models a
   Python exception escaping the function, `Option` models whether the
   function emitted ("printed") an address list to the sink or not;
 * the `main` subscription loop as a deterministic function of an
   environment that scripts the outcome of every external interaction
   (connect, send, each receive), producing the list of observable
   actions the loop performs;
 * the per-event trace orchestration (the two sequential `await`s at
   lines 78-79) together with a latency cost model for sequential
   execution.
-/

namespace EvmTracing

/-- JSON values as decoded by `json.loads`: `null`, booleans, numbers
(modelled as integers; the claims never touch fractional values),
strings, arrays and objects.  An object is an association list of
distinct keys, matching a decoded Python `dict`. -/
inductive Json where
  | null : Json
  | bool (b : Bool) : Json
  | num (n : Int) : Json
  | str (s : String) : Json
  | arr (elems : List Json) : Json
  | obj (fields : List (String × Json)) : Json

/-- The Python exceptions that the script's code paths can raise, plus
the transport-level failures the loop can encounter. -/
inductive PyError where
  | connectError : PyError
  | sendError : PyError
  | recvError : PyError
  | timeoutError : PyError
  | jsonDecodeError : PyError
  | keyError : PyError
  | typeError : PyError
  | attributeError : PyError
deriving DecidableEq, Repr

/-- First-match lookup in a decoded object's field list, the semantics
of a Python `dict` lookup (decoded dicts have distinct keys). -/
def lookupField : List (String × Json) → String → Option Json
  | [], _ => none
  | (k, v) :: rest, key => if k = key then some v else lookupField rest key

/-- Python truthiness of a decoded JSON value: `None`, `False`, `0`,
`""`, `[]` and `{}` are falsy, everything else is truthy.  This is the
test performed by `if result:` in both fetchers. -/
def truthy : Json → Bool
  | .null => false
  | .bool b => b
  | .num n => n != 0
  | .str s => s != ""
  | .arr elems => !elems.isEmpty
  | .obj fields => !fields.isEmpty

/-- `res.get(key)`: returns the field's value, or `null` (Python
`None`) when the key is absent; raises `AttributeError` when `res` is
not a dict. -/
def pyDictGet : Json → String → Except PyError Json
  | .obj fields, key => .ok ((lookupField fields key).getD .null)
  | _, _ => .error .attributeError

/-- `value[key]` with a string key: on a dict, the field's value or
`KeyError` when absent; on anything else, `TypeError`. -/
def pySubscript : Json → String → Except PyError Json
  | .obj fields, key =>
      match lookupField fields key with
      | some v => .ok v
      | none => .error .keyError
  | _, _ => .error .typeError

/-- `list(value.keys())`: the top-level keys of a dict, in insertion
order; `AttributeError` on a non-dict. -/
def pyKeys : Json → Except PyError (List String)
  | .obj fields => .ok (fields.map Prod.fst)
  | _ => .error .attributeError

/-- The extraction logic of `geth_style_tracing` (src/python/main.py
lines 30-36), as a function of the parsed RPC response `res`:

    result = res.get('result')
    if result:
        addresses_touched = list(result.keys())
        print('Geth style: ', addresses_touched)

`Except.error` is a raised exception; `.ok (some addrs)` means the
address list `addrs` was printed; `.ok none` means nothing was emitted. -/
def geth_style_tracing (res : Json) : Except PyError (Option (List String)) := do
  let result ← pyDictGet res "result"
  if truthy result then
    let addresses_touched ← pyKeys result
    pure (some addresses_touched)
  else
    pure none

/-- The extraction logic of `parity_style_tracing` (src/python/main.py
lines 48-55), as a function of the parsed RPC response `res`:

    result = res.get('result')
    if result:
        state_diff = result['stateDiff']
        addresses_touched = list(state_diff.keys())
        print('Parity style: ', addresses_touched)

Same conventions as `geth_style_tracing`. -/
def parity_style_tracing (res : Json) : Except PyError (Option (List String)) := do
  let result ← pyDictGet res "result"
  if truthy result then
    let state_diff ← pySubscript result "stateDiff"
    let addresses_touched ← pyKeys state_diff
    pure (some addresses_touched)
  else
    pure none

/-- `tx_hash = response['params']['result']` (src/python/main.py line
76): the transaction identifier extracted from a parsed subscription
event. -/
def extract_tx_hash (response : Json) : Except PyError Json := do
  let params ← pySubscript response "params"
  pySubscript params "result"

/-! ### Trace orchestration (lines 78-79)

The loop body runs, for each transaction hash,

    await geth_style_tracing(tx_hash)
    await parity_style_tracing(tx_hash)

two plain sequential `await`s: the second coroutine is not created,
let alone scheduled, before the first has completed (there is no
`asyncio.gather` / `create_task` anywhere in the script).  We model
the orchestration as the ordered list of calls the body issues and
give it the cost semantics of sequential execution: the elapsed time
of a sequentially awaited list of calls is the sum of their durations. -/

/-- The two trace-fetch styles. -/
inductive FetchStyle where
  | geth : FetchStyle
  | parity : FetchStyle
deriving DecidableEq, Repr

/-- The calls the loop body issues for one transaction, in source
order (line 78 then line 79). -/
def orchestratorCalls : List FetchStyle := [.geth, .parity]

/-- Elapsed time of executing a list of calls one after the other,
each `await`ed to completion before the next starts, given each
call's duration. -/
def seqElapsed (dur : FetchStyle → Nat) : List FetchStyle → Nat
  | [] => 0
  | c :: rest => dur c + seqElapsed dur rest

/-- Total latency of the script's per-transaction orchestration under
the sequential cost model, given the two fetch durations. -/
def orchestratorLatency (dur : FetchStyle → Nat) : Nat :=
  seqElapsed dur orchestratorCalls

/-- Modelled from the spec: the latency the specification demands of
the Trace Orchestrator — both fetchers run concurrently, so the total
latency is (approximately) the slower call's duration, i.e. the
maximum of the two. -/
def specOrchestratorLatency (dur : FetchStyle → Nat) : Nat :=
  max (dur .geth) (dur .parity)

/-! ### The subscription loop (`main`, lines 58-84)

The loop's interactions with the outside world (websocket connect,
send, each receive, and the outcome of the two trace fetches per
event) are scripted by an environment.  Running the loop over an
environment yields the list of observable actions it performs.  A
`SessionEnv` scripts one connection attempt; since the inner
`while True` receive loop can only be left by an exception, a finite
environment ends with the next receive failing (connection gone). -/

/-- A message delivered by `ws.recv()`: either one that `json.loads`
parses to the given value, or one on which `json.loads` raises. -/
inductive WireMsg where
  | valid (j : Json) : WireMsg
  | invalid : WireMsg

/-- Outcome of the two awaited trace fetches for one event. `ok` means
both coroutines returned; otherwise one of them raised (the Geth-style
call first — in that case the Parity-style call is never made). -/
inductive FetchPhase where
  | ok : FetchPhase
  | gethRaises (e : PyError) : FetchPhase
  | parityRaises (e : PyError) : FetchPhase

/-- One scripted outcome of a bounded receive in the inner loop. -/
inductive LoopEvent where
  | timeout : LoopEvent
  | dropped : LoopEvent
  | message (m : WireMsg) (fetch : FetchPhase) : LoopEvent

/-- Scripted environment for one connection attempt: whether
`websockets.connect` succeeds, whether `ws.send` succeeds, what the
unbounded confirmation `ws.recv()` yields (`none` = it raises), and
the outcomes of the successive bounded receives of the inner loop. -/
structure SessionEnv where
  connectOk : Bool
  sendOk : Bool
  ack : Option WireMsg
  events : List LoopEvent

/-- Observable actions of the loop.  A `recv` records the timeout
bound the wait was given (`none` = a bare `ws.recv()` with no
timeout; `some t` = `asyncio.wait_for(ws.recv(), timeout=t)` with `t`
in seconds).  `sleep` records a `time.sleep` duration in seconds. -/
inductive Action where
  | connect : Action
  | send (payload : Json) : Action
  | recv (timeoutSecs : Option Nat) : Action
  | printAck (m : WireMsg) : Action
  | traceGeth (txHash : Json) : Action
  | traceParity (txHash : Json) : Action
  | printSep : Action
  | sleep (secs : Nat) : Action
  | printReconnect : Action

/-- The fields of the subscribe request built at lines 62-67, in
source order, with `'json'` (not the standard `'jsonrpc'`) as the
version-field key. -/
def subscribeFields : List (String × Json) :=
  [("json", .str "2.0"), ("id", .num 1),
   ("method", .str "eth_subscribe"),
   ("params", .arr [.str "newPendingTransactions"])]

/-- The subscribe request object sent once per successful connection
(line 69). -/
def subscribePayload : Json := .obj subscribeFields

/-- The inner receive loop (lines 73-81): each iteration performs a
600-second-bounded receive, parses the message, extracts
`params.result`, and awaits the two trace fetches.  Returns the
actions performed and the exception that ended the loop (the inner
`while True` has no normal exit; an exhausted script means the next
receive finds the connection gone and raises). -/
def runRecvLoop : List LoopEvent → List Action × PyError
  | [] => ([.recv (some 600)], .recvError)
  | .timeout :: _ => ([.recv (some 600)], .timeoutError)
  | .dropped :: _ => ([.recv (some 600)], .recvError)
  | .message .invalid _ :: _ => ([.recv (some 600)], .jsonDecodeError)
  | .message (.valid j) fetch :: rest =>
      match extract_tx_hash j with
      | .error e => ([.recv (some 600)], e)
      | .ok tx =>
          match fetch with
          | .gethRaises e => ([.recv (some 600), .traceGeth tx], e)
          | .parityRaises e =>
              ([.recv (some 600), .traceGeth tx, .traceParity tx], e)
          | .ok =>
              (.recv (some 600) :: .traceGeth tx :: .traceParity tx ::
                 .printSep :: (runRecvLoop rest).1, (runRecvLoop rest).2)

/-- One pass of the `try` body (lines 61-81): connect, send the
subscribe request, one unbounded confirmation receive which is
printed, then the inner receive loop.  Returns the actions performed
and the exception that escapes the body. -/
def runSession (env : SessionEnv) : List Action × PyError :=
  if env.connectOk then
    if env.sendOk then
      match env.ack with
      | some m =>
          (.connect :: .send subscribePayload :: .recv none ::
             .printAck m :: (runRecvLoop env.events).1,
           (runRecvLoop env.events).2)
      | none =>
          ([.connect, .send subscribePayload, .recv none], .recvError)
    else ([.connect, .send subscribePayload], .sendError)
  else ([.connect], .connectError)

/-- The outer `while True: try: ... except:` loop (lines 59-84) run
over a list of scripted connection attempts: every exception escaping
the body is caught by the bare `except:`, which sleeps 2 seconds,
prints, and retries with the next attempt.  Total — no exception
component in the result type, because none propagates. -/
def runMain : List SessionEnv → List Action
  | [] => []
  | env :: rest =>
      (runSession env).1 ++ .sleep 2 :: .printReconnect :: runMain rest

/-! ### Auxiliary definitions used by the statements -/

/-- Is this action a connection attempt? -/
def isConnect : Action → Bool
  | .connect => true
  | _ => false

/-- Is this action a send on the websocket? -/
def isSend : Action → Bool
  | .send _ => true
  | _ => false

/-- Is this action the fixed 2-second reconnect delay? -/
def isSleepTwo : Action → Bool
  | .sleep n => n == 2
  | _ => false

/-- Actions that the inner receive loop can perform (it never
connects, sends, sleeps or prints the reconnect banner). -/
def loopAction : Action → Bool
  | .recv _ => true
  | .traceGeth _ => true
  | .traceParity _ => true
  | .printSep => true
  | _ => false

/-- A loop event that one iteration processes completely without
raising: a parseable message with an extractable `params.result` whose
two fetches both return. -/
def cleanEvent : LoopEvent → Bool
  | .message (.valid j) .ok => (extract_tx_hash j).isOk
  | _ => false

/-- A connection attempt that succeeds through the subscription
acknowledgment and then sees no further scripted traffic. -/
def envAckOnly : SessionEnv :=
  { connectOk := true, sendOk := true,
    ack := some (.valid (.str "0xsubid")), events := [] }

/-- A connection attempt whose first bounded receive times out. -/
def envTimeoutFirst : SessionEnv :=
  { connectOk := true, sendOk := true,
    ack := some (.valid (.str "0xsubid")), events := [.timeout] }

/-- Fetch durations for the spec's concurrency scenario: the
Parity-style call takes five times longer than the Geth-style call. -/
def exDur : FetchStyle → Nat
  | .geth => 1
  | .parity => 5

/-- A response carrying a JSON-RPC error object and no result, as a
node returns it for a failed trace call. -/
def errorResponse : Json :=
  .obj [("jsonrpc", .str "2.0"), ("id", .num 1),
        ("error", .obj [("code", .num (-32000)),
                        ("message", .str "header not found")])]

/-! ## Helper lemmas -/

/-- A successful lookup needs a non-empty field list. -/
theorem lookupField_isSome_ne_nil {fs : List (String × Json)} {k : String} {v : Json}
    (h : lookupField fs k = some v) : fs.isEmpty = false := by
  cases fs with
  | nil => simp [lookupField] at h
  | cons a as => rfl

/-! ## Claims about the trace fetchers -/

/-- C4 (counterexample): a response whose Geth-style result is present
and non-null — the empty object — on which the fetcher emits nothing
(`.ok none`) instead of the result's top-level key set (`some []`), so
the claim fails as stated. -/
theorem geth_keyset_cex :
    geth_style_tracing (Json.obj [("id", .num 1), ("result", .obj [])]) = .ok none ∧
    (Except.ok none : Except PyError (Option (List String))) ≠
      .ok (some (([] : List (String × Json)).map Prod.fst)) :=
  ⟨rfl, by simp⟩

/-- C4 (amended): for every trace response whose Geth-style result is
a non-empty object, the emitted address list equals exactly the
top-level keys of the result object; a non-null but empty object
result is conflated with the no-trace case and emits nothing. -/
theorem geth_keyset (fields resFs : List (String × Json))
    (hres : lookupField fields "result" = some (.obj resFs))
    (hne : resFs.isEmpty = false) :
    geth_style_tracing (.obj fields) = .ok (some (resFs.map Prod.fst)) := by
  simp [geth_style_tracing, pyDictGet, hres, truthy, hne, pyKeys, bind,
    Except.bind, pure, Except.pure]

/-- Witness for `geth_keyset` at a concrete two-address prestate
response. -/
theorem geth_keyset_witness :
    geth_style_tracing
      (Json.obj [("jsonrpc", .str "2.0"), ("id", .num 1),
        ("result", .obj [("0xaaa", .obj [("balance", .str "0x0")]),
                         ("0xbbb", .obj [])])]) =
      .ok (some ["0xaaa", "0xbbb"]) :=
  geth_keyset
    [("jsonrpc", .str "2.0"), ("id", .num 1),
     ("result", .obj [("0xaaa", .obj [("balance", .str "0x0")]),
                      ("0xbbb", .obj [])])]
    [("0xaaa", .obj [("balance", .str "0x0")]), ("0xbbb", .obj [])]
    rfl rfl

/-- C5: for every trace response whose Parity-style result is an
object containing a `stateDiff` object, the emitted address list
equals exactly the top-level keys of `stateDiff`. -/
theorem parity_keyset (fields resFs sdFs : List (String × Json))
    (hres : lookupField fields "result" = some (.obj resFs))
    (hsd : lookupField resFs "stateDiff" = some (.obj sdFs)) :
    parity_style_tracing (.obj fields) = .ok (some (sdFs.map Prod.fst)) := by
  have hne : resFs.isEmpty = false := lookupField_isSome_ne_nil hsd
  simp [parity_style_tracing, pyDictGet, pySubscript, hres, hsd, truthy, hne,
    pyKeys, bind, Except.bind, pure, Except.pure]

/-- Witness for `parity_keyset` at a concrete state-diff response. -/
theorem parity_keyset_witness :
    parity_style_tracing
      (Json.obj [("id", .num 1),
        ("result", .obj [("output", .str "0x"),
          ("stateDiff", .obj [("0xccc", .obj []), ("0xddd", .null)])])]) =
      .ok (some ["0xccc", "0xddd"]) :=
  parity_keyset
    [("id", .num 1),
     ("result", .obj [("output", .str "0x"),
       ("stateDiff", .obj [("0xccc", .obj []), ("0xddd", .null)])])]
    [("output", .str "0x"),
     ("stateDiff", .obj [("0xccc", .obj []), ("0xddd", .null)])]
    [("0xccc", .obj []), ("0xddd", .null)]
    rfl rfl

/-- C2 (counterexample): a response whose Parity-style result is
present and non-null — the empty object — which lacks `stateDiff`,
yet the fetch completes without any exception (`.isOk`), emitting
nothing; the claim "must fail" is false as stated. -/
theorem parity_missing_statediff_cex :
    parity_style_tracing (Json.obj [("result", Json.obj [])]) = .ok none ∧
    (parity_style_tracing (Json.obj [("result", Json.obj [])])).isOk = true :=
  ⟨rfl, rfl⟩

/-- C2 (amended): for every response whose Parity-style result is a
non-empty (truthy) object lacking `stateDiff`, the fetch raises
`KeyError` rather than returning an empty address set; a falsy
non-null result such as the empty object is instead conflated with the
no-trace case and does not fail. -/
theorem parity_missing_statediff (fields resFs : List (String × Json))
    (hres : lookupField fields "result" = some (.obj resFs))
    (hne : resFs.isEmpty = false)
    (hsd : lookupField resFs "stateDiff" = none) :
    parity_style_tracing (.obj fields) = .error .keyError := by
  simp [parity_style_tracing, pyDictGet, pySubscript, hres, hsd, truthy, hne,
    bind, Except.bind, pure, Except.pure]

/-- Witness for `parity_missing_statediff`: a non-empty result object
without `stateDiff` makes the fetch raise. -/
theorem parity_missing_statediff_witness :
    parity_style_tracing
      (Json.obj [("result", Json.obj [("trace", .arr [])])]) =
      .error .keyError :=
  parity_missing_statediff
    [("result", Json.obj [("trace", .arr [])])]
    [("trace", .arr [])]
    rfl rfl rfl

/-- C3 (counterexample): on a response carrying a JSON-RPC error
object, both fetchers complete as if the call had succeeded with an
empty outcome — the error object is never inspected (`res.get` only
reads `result`), so no remote error is surfaced. -/
theorem rpc_error_object_cex :
    geth_style_tracing errorResponse = .ok none ∧
    parity_style_tracing errorResponse = .ok none :=
  ⟨rfl, rfl⟩

/-- C3 (amended): any response whose `result` field is absent or falsy
— whether or not a JSON-RPC error object is present — is treated by
both fetchers as a non-error empty outcome: the error object is
ignored rather than surfaced as a remote error; an absent result with
no error object is likewise only an empty outcome. -/
theorem falsy_result_empty_outcome (fields : List (String × Json))
    (h : truthy ((lookupField fields "result").getD .null) = false) :
    geth_style_tracing (.obj fields) = .ok none ∧
    parity_style_tracing (.obj fields) = .ok none := by
  constructor
  · simp [geth_style_tracing, pyDictGet, h, bind, Except.bind, pure, Except.pure]
  · simp [parity_style_tracing, pyDictGet, h, bind, Except.bind, pure, Except.pure]

/-- Witness for `falsy_result_empty_outcome` at a concrete response
holding an error object and no result. -/
theorem falsy_result_empty_outcome_witness :
    geth_style_tracing errorResponse = .ok none ∧
    parity_style_tracing errorResponse = .ok none :=
  falsy_result_empty_outcome
    [("jsonrpc", .str "2.0"), ("id", .num 1),
     ("error", .obj [("code", .num (-32000)),
                     ("message", .str "header not found")])] rfl

/-- C6: for every well-formed subscription event — an object whose
`params` field is an object with a `result` field — the extracted
transaction identifier is exactly `params.result`, verbatim. -/
theorem tx_hash_verbatim (fields pf : List (String × Json)) (v : Json)
    (hp : lookupField fields "params" = some (.obj pf))
    (hr : lookupField pf "result" = some v) :
    extract_tx_hash (.obj fields) = .ok v := by
  simp [extract_tx_hash, pySubscript, hp, hr, bind, Except.bind]

/-- Witness for `tx_hash_verbatim` at a concrete subscription event. -/
theorem tx_hash_verbatim_witness :
    extract_tx_hash
      (Json.obj [("jsonrpc", .str "2.0"),
        ("method", .str "eth_subscription"),
        ("params", .obj [("subscription", .str "0xsub"),
                         ("result", .str "0xdeadbeef")])]) =
      .ok (.str "0xdeadbeef") :=
  tx_hash_verbatim
    [("jsonrpc", .str "2.0"),
     ("method", .str "eth_subscription"),
     ("params", .obj [("subscription", .str "0xsub"),
                      ("result", .str "0xdeadbeef")])]
    [("subscription", .str "0xsub"), ("result", .str "0xdeadbeef")]
    (.str "0xdeadbeef")
    rfl rfl

/-- C10: a response whose result is present but the empty object makes
both fetchers emit nothing and raise nothing, behaving exactly like a
null-result response — the `if result:` guard tests Python truthiness,
so the empty object is conflated with "no trace produced" and the
key-set extraction is never applied to it. -/
theorem empty_result_conflated_with_null (fields : List (String × Json))
    (h : lookupField fields "result" = some (Json.obj [])) :
    geth_style_tracing (.obj fields) = .ok none ∧
    parity_style_tracing (.obj fields) = .ok none ∧
    geth_style_tracing (.obj fields) =
      geth_style_tracing (.obj [("result", Json.null)]) ∧
    parity_style_tracing (.obj fields) =
      parity_style_tracing (.obj [("result", Json.null)]) := by
  refine ⟨?_, ?_, ?_, ?_⟩ <;>
    simp [geth_style_tracing, parity_style_tracing, pyDictGet, h, truthy,
      lookupField, bind, Except.bind, pure, Except.pure]

/-- Witness for `empty_result_conflated_with_null` at a concrete
empty-object trace response. -/
theorem empty_result_conflated_with_null_witness :
    geth_style_tracing (Json.obj [("id", .num 7), ("result", Json.obj [])]) = .ok none ∧
    parity_style_tracing (Json.obj [("id", .num 7), ("result", Json.obj [])]) = .ok none ∧
    geth_style_tracing (Json.obj [("id", .num 7), ("result", Json.obj [])]) =
      geth_style_tracing (.obj [("result", Json.null)]) ∧
    parity_style_tracing (Json.obj [("id", .num 7), ("result", Json.obj [])]) =
      parity_style_tracing (.obj [("result", Json.null)]) :=
  empty_result_conflated_with_null [("id", .num 7), ("result", Json.obj [])] rfl

/-! ## Helper lemmas about the subscription loop -/

/-- Every action the inner receive loop performs is a loop action:
it never connects, sends, sleeps or prints the reconnect banner. -/
theorem runRecvLoop_actions (evs : List LoopEvent) :
    ∀ a ∈ (runRecvLoop evs).1, loopAction a = true := by
  induction evs with
  | nil => intro a ha; simp [runRecvLoop] at ha; subst ha; rfl
  | cons ev rest ih =>
    intro a ha
    match ev with
    | .timeout => simp [runRecvLoop] at ha; subst ha; rfl
    | .dropped => simp [runRecvLoop] at ha; subst ha; rfl
    | .message .invalid f => simp [runRecvLoop] at ha; subst ha; rfl
    | .message (.valid j) f =>
      cases h : extract_tx_hash j with
      | error e => simp [runRecvLoop, h] at ha; subst ha; rfl
      | ok tx =>
        cases f with
        | gethRaises e =>
          simp [runRecvLoop, h] at ha
          rcases ha with ha | ha <;> subst ha <;> rfl
        | parityRaises e =>
          simp [runRecvLoop, h] at ha
          rcases ha with ha | ha | ha <;> subst ha <;> rfl
        | ok =>
          simp [runRecvLoop, h] at ha
          rcases ha with ha | ha | ha | ha | ha
          · subst ha; rfl
          · subst ha; rfl
          · subst ha; rfl
          · subst ha; rfl
          · exact ih a ha

/-- Loop actions are not connection attempts. -/
theorem loopAction_not_connect {a : Action} (h : loopAction a = true) :
    isConnect a = false := by
  cases a <;> first | rfl | simp [loopAction] at h

/-- Loop actions are not sends. -/
theorem loopAction_not_send {a : Action} (h : loopAction a = true) :
    isSend a = false := by
  cases a <;> first | rfl | simp [loopAction] at h

/-- Loop actions are not the reconnect delay. -/
theorem loopAction_not_sleepTwo {a : Action} (h : loopAction a = true) :
    isSleepTwo a = false := by
  cases a <;> first | rfl | simp [loopAction, isSleepTwo] at h

/-- The inner receive loop never connects. -/
theorem runRecvLoop_countP_connect (evs : List LoopEvent) :
    (runRecvLoop evs).1.countP isConnect = 0 := by
  rw [List.countP_eq_zero]
  intro a ha
  simp [loopAction_not_connect (runRecvLoop_actions evs a ha)]

/-- The inner receive loop never sends. -/
theorem runRecvLoop_countP_send (evs : List LoopEvent) :
    (runRecvLoop evs).1.countP isSend = 0 := by
  rw [List.countP_eq_zero]
  intro a ha
  simp [loopAction_not_send (runRecvLoop_actions evs a ha)]

/-- The inner receive loop never sleeps the reconnect delay. -/
theorem runRecvLoop_countP_sleepTwo (evs : List LoopEvent) :
    (runRecvLoop evs).1.countP isSleepTwo = 0 := by
  rw [List.countP_eq_zero]
  intro a ha
  simp [loopAction_not_sleepTwo (runRecvLoop_actions evs a ha)]

/-- Every bounded receive the inner loop performs carries the
600-second timeout. -/
theorem runRecvLoop_recv_bound (evs : List LoopEvent) :
    ∀ t, Action.recv (some t) ∈ (runRecvLoop evs).1 → t = 600 := by
  induction evs with
  | nil => intro t ht; simp [runRecvLoop] at ht; exact ht
  | cons ev rest ih =>
    intro t ht
    match ev with
    | .timeout => simp [runRecvLoop] at ht; exact ht
    | .dropped => simp [runRecvLoop] at ht; exact ht
    | .message .invalid f => simp [runRecvLoop] at ht; exact ht
    | .message (.valid j) f =>
      cases h : extract_tx_hash j with
      | error e => simp [runRecvLoop, h] at ht; exact ht
      | ok tx =>
        cases f with
        | gethRaises e => simp [runRecvLoop, h] at ht; exact ht
        | parityRaises e => simp [runRecvLoop, h] at ht; exact ht
        | ok =>
          simp [runRecvLoop, h] at ht
          rcases ht with ht | ht
          · exact ht
          · exact ih t ht

/-- Every bounded receive in one connection attempt carries the
600-second timeout. -/
theorem runSession_recv_bound (env : SessionEnv) :
    ∀ t, Action.recv (some t) ∈ (runSession env).1 → t = 600 := by
  intro t ht
  unfold runSession at ht
  by_cases hc : env.connectOk
  · by_cases hs : env.sendOk
    · match ha : env.ack with
      | some m =>
        simp [hc, hs, ha] at ht
        exact runRecvLoop_recv_bound env.events t ht
      | none => simp [hc, hs, ha] at ht
    · simp [hc, hs] at ht
  · simp [hc] at ht

/-- Every bounded receive across the whole run carries the 600-second
timeout. -/
theorem runMain_recv_bound (envs : List SessionEnv) :
    ∀ t, Action.recv (some t) ∈ runMain envs → t = 600 := by
  induction envs with
  | nil => intro t ht; simp [runMain] at ht
  | cons env rest ih =>
    intro t ht
    simp [runMain] at ht
    rcases ht with ht | ht
    · exact runSession_recv_bound env t ht
    · exact ih t ht

/-- Each connection attempt performs exactly one connect action. -/
theorem runSession_countP_connect (env : SessionEnv) :
    (runSession env).1.countP isConnect = 1 := by
  by_cases hc : env.connectOk
  · by_cases hs : env.sendOk
    · match ha : env.ack with
      | some m =>
        simp [runSession, hc, hs, ha, List.countP_cons, isConnect,
          runRecvLoop_countP_connect]
      | none => simp [runSession, hc, hs, ha, List.countP_cons, isConnect]
    · simp [runSession, hc, hs, List.countP_cons, isConnect]
  · simp [runSession, hc, List.countP_cons, isConnect]

/-- A connection attempt itself never performs the reconnect delay —
the delay lives in the `except:` handler only. -/
theorem runSession_countP_sleepTwo (env : SessionEnv) :
    (runSession env).1.countP isSleepTwo = 0 := by
  by_cases hc : env.connectOk
  · by_cases hs : env.sendOk
    · match ha : env.ack with
      | some m =>
        simp [runSession, hc, hs, ha, List.countP_cons, isSleepTwo,
          runRecvLoop_countP_sleepTwo]
      | none => simp [runSession, hc, hs, ha, List.countP_cons, isSleepTwo]
    · simp [runSession, hc, hs, List.countP_cons, isSleepTwo]
  · simp [runSession, hc, List.countP_cons, isSleepTwo]

/-- The run of the outer loop is the concatenation of each attempt's
actions followed by the 2-second delay and the reconnect banner. -/
theorem runMain_join (envs : List SessionEnv) :
    runMain envs =
      (envs.map (fun env => (runSession env).1 ++ [.sleep 2, .printReconnect])).flatten := by
  induction envs with
  | nil => rfl
  | cons env rest ih => simp [runMain, ih]

/-- The run performs one connect action per scripted attempt: no
failure stops the loop from retrying. -/
theorem runMain_countP_connect (envs : List SessionEnv) :
    (runMain envs).countP isConnect = envs.length := by
  induction envs with
  | nil => rfl
  | cons env rest ih =>
    simp [runMain, List.countP_append, List.countP_cons, isConnect,
      runSession_countP_connect, ih]
    omega

/-- The run performs the fixed 2-second delay exactly once per failed
attempt. -/
theorem runMain_countP_sleepTwo (envs : List SessionEnv) :
    (runMain envs).countP isSleepTwo = envs.length := by
  induction envs with
  | nil => rfl
  | cons env rest ih =>
    simp [runMain, List.countP_append, List.countP_cons, isSleepTwo,
      runSession_countP_sleepTwo, ih]

/-- A timeout arriving after any number of cleanly processed events
ends the receive loop with `TimeoutError`. -/
theorem runRecvLoop_timeout_after_clean (pre rest : List LoopEvent)
    (h : ∀ ev ∈ pre, cleanEvent ev = true) :
    (runRecvLoop (pre ++ .timeout :: rest)).2 = .timeoutError := by
  induction pre with
  | nil => rfl
  | cons ev pre ih =>
    have hev := h ev (List.mem_cons_self ev pre)
    have hrest : ∀ e ∈ pre, cleanEvent e = true :=
      fun e he => h e (List.mem_cons_of_mem ev he)
    match ev with
    | .timeout => simp [cleanEvent] at hev
    | .dropped => simp [cleanEvent] at hev
    | .message .invalid f => simp [cleanEvent] at hev
    | .message (.valid j) .ok =>
      cases hx : extract_tx_hash j with
      | error e => simp [cleanEvent, hx, Except.isOk, Except.toBool] at hev
      | ok tx => simp [runRecvLoop, hx, ih hrest]
    | .message (.valid j) (.gethRaises e) => simp [cleanEvent] at hev
    | .message (.valid j) (.parityRaises e) => simp [cleanEvent] at hev

/-! ## Claims about the orchestrator and the subscription loop -/

/-- C1 (counterexample): with the Geth-style fetch taking 1 time unit
and the Parity-style fetch taking 5, the loop body's orchestration —
two sequential `await`s — takes 6 units, the sum of both, not the
5 units (the slower call) that concurrent execution would take; the
claim of concurrent invocation is false of the code. -/
theorem orchestrator_not_concurrent_cex :
    orchestratorLatency exDur = exDur .geth + exDur .parity ∧
    orchestratorLatency exDur = 6 ∧
    specOrchestratorLatency exDur = 5 ∧
    orchestratorLatency exDur ≠ specOrchestratorLatency exDur :=
  ⟨rfl, rfl, rfl, by decide⟩

/-- C1 (amended): for every transaction, the loop body invokes both
fetchers — the Geth-style one first, awaited to completion before the
Parity-style one starts — so for all fetch durations the total
orchestration latency is the sum of the two calls' latencies, not the
slower call's latency. -/
theorem orchestrator_sequential (dur : FetchStyle → Nat) :
    orchestratorCalls = [.geth, .parity] ∧
    orchestratorLatency dur = dur .geth + dur .parity :=
  ⟨rfl, by simp [orchestratorLatency, orchestratorCalls, seqElapsed]⟩

/-- C7: for every scripted sequence of connection attempts — each of
which may fail at connect, send, the confirmation receive, any later
receive (drop, timeout, unparseable message, missing `params.result`)
or inside either trace fetch — the run of the outer loop is exactly
each attempt's actions followed by the 2-second delay and the retry of
the next attempt: every exception is caught at the loop boundary
(`runMain` has no error outcome), every attempt is followed by exactly
one fixed 2-second delay, and the loop goes on to connect once per
attempt, never terminating early. -/
theorem loop_confines_failures (envs : List SessionEnv) :
    runMain envs =
      (envs.map (fun env => (runSession env).1 ++ [.sleep 2, .printReconnect])).flatten ∧
    (runMain envs).countP isConnect = envs.length ∧
    (runMain envs).countP isSleepTwo = envs.length :=
  ⟨runMain_join envs, runMain_countP_connect envs, runMain_countP_sleepTwo envs⟩

/-- C8 (counterexample): a run in which the loop performs a receive
wait with no timeout bound at all — the confirmation receive at line
70 is a bare `ws.recv()`, not wrapped in `asyncio.wait_for` — so the
claim that every receive wait is bounded by the 600-second idle
timeout is false. -/
theorem recv_unbounded_cex :
    Action.recv none ∈ runMain [envAckOnly] ∧ (none : Option Nat) ≠ some 600 := by
  constructor
  · simp [runMain, runSession, envAckOnly, runRecvLoop]
  · simp

/-- C8 (amended): every receive wait of the inner receive loop is
bounded by the 600-second idle timeout, and exceeding it is a
connection failure (`TimeoutError`) that — like every failure — is
caught and followed by the 2-second delay and a reconnect, not a
clean close or a hang; the initial subscription-confirmation receive,
however, is unbounded. -/
theorem recv_timeout_discipline :
    (∀ envs t, Action.recv (some t) ∈ runMain envs → t = 600) ∧
    (∀ env m, env.connectOk = true → env.sendOk = true → env.ack = some m →
      Action.recv none ∈ (runSession env).1) ∧
    (∀ env m pre rest, env.connectOk = true → env.sendOk = true → env.ack = some m →
      env.events = pre ++ .timeout :: rest → (∀ ev ∈ pre, cleanEvent ev = true) →
      (runSession env).2 = .timeoutError) ∧
    (∀ env rest, runMain (env :: rest) =
      (runSession env).1 ++ .sleep 2 :: .printReconnect :: runMain rest) := by
  refine ⟨runMain_recv_bound, ?_, ?_, fun env rest => rfl⟩
  · intro env m hc hs ha
    simp [runSession, hc, hs, ha]
  · intro env m pre rest hc hs ha hev hclean
    simp [runSession, hc, hs, ha, hev, runRecvLoop_timeout_after_clean pre rest hclean]

/-- Witness for `recv_timeout_discipline` at a connection whose first
bounded receive times out. -/
theorem recv_timeout_discipline_witness :
    (600 : Nat) = 600 ∧
    Action.recv none ∈ (runSession envTimeoutFirst).1 ∧
    (runSession envTimeoutFirst).2 = .timeoutError := by
  obtain ⟨h1, h2, h3, _h4⟩ := recv_timeout_discipline
  refine ⟨?_, ?_, ?_⟩
  · exact h1 [envTimeoutFirst] 600
      (by simp [runMain, runSession, envTimeoutFirst, runRecvLoop])
  · exact h2 envTimeoutFirst (.valid (.str "0xsubid")) rfl rfl rfl
  · exact h3 envTimeoutFirst (.valid (.str "0xsubid")) [] [] rfl rfl rfl rfl (by simp)

/-- C9: on every successful connection the loop sends exactly one
subscribe request, whose payload carries version key `"json"` (value
`"2.0"`) and no `"jsonrpc"` key, method `eth_subscribe`, params
`["newPendingTransactions"]` and id 1; the send happens right after
connecting, and exactly one confirmation message is awaited (and
printed) before the receive loop's bounded receives begin. -/
theorem subscribe_protocol (env : SessionEnv) (m : WireMsg)
    (hc : env.connectOk = true) (hs : env.sendOk = true) (ha : env.ack = some m) :
    (runSession env).1 =
      .connect :: .send subscribePayload :: .recv none :: .printAck m ::
        (runRecvLoop env.events).1 ∧
    (runSession env).1.countP isSend = 1 ∧
    subscribePayload = .obj subscribeFields ∧
    lookupField subscribeFields "json" = some (.str "2.0") ∧
    lookupField subscribeFields "jsonrpc" = none ∧
    lookupField subscribeFields "method" = some (.str "eth_subscribe") ∧
    lookupField subscribeFields "params" = some (.arr [.str "newPendingTransactions"]) ∧
    lookupField subscribeFields "id" = some (.num 1) := by
  refine ⟨by simp [runSession, hc, hs, ha], ?_, rfl, rfl, rfl, rfl, rfl, rfl⟩
  simp [runSession, hc, hs, ha, List.countP_cons, isSend, runRecvLoop_countP_send]

/-- Witness for `subscribe_protocol` at a concrete successful
connection. -/
theorem subscribe_protocol_witness :
    (runSession envAckOnly).1 =
      .connect :: .send subscribePayload :: .recv none ::
        .printAck (.valid (.str "0xsubid")) :: (runRecvLoop envAckOnly.events).1 ∧
    (runSession envAckOnly).1.countP isSend = 1 ∧
    subscribePayload = .obj subscribeFields ∧
    lookupField subscribeFields "json" = some (.str "2.0") ∧
    lookupField subscribeFields "jsonrpc" = none ∧
    lookupField subscribeFields "method" = some (.str "eth_subscribe") ∧
    lookupField subscribeFields "params" = some (.arr [.str "newPendingTransactions"]) ∧
    lookupField subscribeFields "id" = some (.num 1) :=
  subscribe_protocol envAckOnly (.valid (.str "0xsubid")) rfl rfl rfl

end EvmTracing
